import Mathlib

/-!
Verification of the scroll-synchronized camera/section choreography engine of
the ArchipelagoFolio portfolio site.

The development shallowly embeds three pieces of the source:

* the interpolation kernel and cinematic-tour frame loop of the Mapbox map
  component (`lerp`, `easeInOutQuad`, `easeInCubic`, `easeOutCubic`, and the
  `animate` closure of `startCinematicTour`);
* the intersection handler of the `useSectionVisibility` hook
  (`handleIntersection`), which maintains the visible-section set, the
  per-section progress map and the active section, and fires the
  `onSectionChange` / `onVisibilityChange` callbacks;
* the `flyToRegion` operation of the `useMapAnimation` hook, including its
  early-return guard and the `moveend` / `error` settlement handlers.

Numbers are modelled as rationals (the source computes with IEEE doubles, but
every computation relevant here is exact at the inputs considered).
-/

namespace ArchipelagoFolio

/-! ## Interpolation kernel -/

/-- Scalar branch of the source `lerp`: `a * (1.0 - t) + b * t`. -/
def lerp (a b t : ℚ) : ℚ := a * (1 - t) + b * t

/-- Two-vector branch of the source `lerp`, component-wise on pairs. -/
def lerpVec (a b : ℚ × ℚ) (t : ℚ) : ℚ × ℚ :=
  (a.1 * (1 - t) + b.1 * t, a.2 * (1 - t) + b.2 * t)

/-- Source: `t < 0.5 ? 2.0 * t * t : (4.0 - 2.0 * t) * t - 1.0`. -/
def easeInOutQuad (t : ℚ) : ℚ :=
  if t < 1/2 then 2 * t * t else (4 - 2 * t) * t - 1

/-- Source: `t * t * t`. -/
def easeInCubic (t : ℚ) : ℚ := t * t * t

/-- Source: `1 - Math.pow(1 - t, 3)`. -/
def easeOutCubic (t : ℚ) : ℚ := 1 - (1 - t) ^ 3

/-! ## Cinematic-tour frame loop

State of the `animate` closure in `startCinematicTour`: the mutable variables
`animationIndex` and `animationTime` (seconds). Each `requestAnimationFrame`
invocation first normalizes the index modulo the number of animations, renders
the current phase, then adds `1.0 / 60.0` seconds and, when the accumulated
time strictly exceeds the current segment's duration, increments the index and
resets the time to `0.0`. -/

structure AnimState where
  animationIndex : Nat
  animationTime : ℚ
deriving DecidableEq

/-- Durations (seconds) of the eight animations of the Metro Manila tour, in
source order: South Luzon Approach 4.0, Swoop to Makati 6.0, Orbit Makati 5.0,
Fly to Manila Bay 5.0, Glide to BGC 6.0, BGC Aerial View 4.0, Transit to
Ortigas 5.0, Ascend to North Luzon 5.0. -/
def tourDurations : List ℚ := [4, 6, 5, 5, 6, 4, 5, 5]

/-- The fixed per-frame increment `1.0 / 60.0` of the animate loop. -/
def frameDelta : ℚ := 1/60

/-- The segment index actually used to select the current animation:
`animationIndex % animations.length` (the normalization at the top of each
frame). -/
def currentSegment (ds : List ℚ) (s : AnimState) : Nat :=
  s.animationIndex % ds.length

/-- One invocation of the `animate` frame callback, restricted to its effect
on `(animationIndex, animationTime)`: normalize the index, add `1/60` to the
time, and if the new time strictly exceeds the current duration, step to the
next index with time reset to `0`. -/
def animateStep (ds : List ℚ) (s : AnimState) : AnimState :=
  let idx := currentSegment ds s
  let d := ds.getD idx 0
  let t := s.animationTime + frameDelta
  if d < t then ⟨idx + 1, 0⟩ else ⟨idx, t⟩

/-- `n` consecutive frames of the animate loop. -/
def runAnim (ds : List ℚ) : Nat → AnimState → AnimState
  | 0, s => s
  | n + 1, s => runAnim ds n (animateStep ds s)

/-! ## Section-visibility mapper

One `IntersectionObserverEntry` as consumed by `handleIntersection`: the
`data-section-id` attribute of the target (absent or empty means the entry is
skipped), the `isIntersecting` flag and the `intersectionRatio`. -/

structure Entry where
  sectionId : Option String
  isIntersecting : Bool
  intersectionRatio : ℚ

/-- The hook's state: `visibleSections` (a `Set<string>`, kept here as a
duplicate-free list in insertion order), `activeSection`, `sectionProgress`
(a `Map<string, number>` as an association list), plus the histories of
`onSectionChange` and `onVisibilityChange` invocations. -/
structure MapperState where
  visibleSections : List String
  activeSection : Option String
  sectionProgress : List (String × ℚ)
  changeEmits : List String
  visibilityEmits : List (String × Bool)
deriving DecidableEq

/-- Initial hook state: empty set, null active section, empty map. -/
def initMapper : MapperState := ⟨[], none, [], [], []⟩

/-- `Set.add`: append if not already present. -/
def setInsert (l : List String) (x : String) : List String :=
  if x ∈ l then l else l ++ [x]

/-- `Map.set`: update in place if the key exists, else append. -/
def mapSet : List (String × ℚ) → String → ℚ → List (String × ℚ)
  | [], k, v => [(k, v)]
  | (k', v') :: rest, k, v =>
    if k' = k then (k, v) :: rest else (k', v') :: mapSet rest k v

/-- The threshold actually compared against: the source writes
`threshold || 0.3`, so a threshold of `0` (falsy) falls back to `0.3`. -/
def effThreshold (th : ℚ) : ℚ := if th = 0 then 3/10 else th

/-- Processing of a single entry by `handleIntersection`: skip entries without
a section id; add to / remove from `visibleSections` according to
`isIntersecting`; record the ratio in `sectionProgress`; if the entry is
intersecting with ratio strictly above the (effective) threshold, set
`activeSection` to this section and invoke `onSectionChange`; finally invoke
`onVisibilityChange` with the flag. -/
def processEntry (th : ℚ) (s : MapperState) (e : Entry) : MapperState :=
  match e.sectionId with
  | none => s
  | some id =>
    if id = "" then s
    else
      { visibleSections :=
          if e.isIntersecting then setInsert s.visibleSections id
          else s.visibleSections.erase id
        sectionProgress := mapSet s.sectionProgress id e.intersectionRatio
        activeSection :=
          if e.isIntersecting ∧ effThreshold th < e.intersectionRatio then some id
          else s.activeSection
        changeEmits :=
          if e.isIntersecting ∧ effThreshold th < e.intersectionRatio then
            s.changeEmits ++ [id]
          else s.changeEmits
        visibilityEmits := s.visibilityEmits ++ [(id, e.isIntersecting)] }

/-- `entries.forEach(...)`: process a batch of entries in order. -/
def processEntries (th : ℚ) (s : MapperState) (es : List Entry) : MapperState :=
  es.foldl (processEntry th) s

/-! ## Map-animation hook (`flyToRegion`)

State of `useMapAnimation` relevant to one `flyToRegion` operation:
`isAnimatingRef.current`, whether `animationPromiseRef.current` is non-null,
how many times the current operation's promise has been settled (resolve or
reject delivered), and whether the `moveend` / `error` listeners are attached. -/

structure FlyState where
  isAnimating : Bool
  promiseRef : Bool
  settleCount : Nat
  moveEndAttached : Bool
  errorAttached : Bool
deriving DecidableEq

/-- State before any animation: nothing running, no pending promise. -/
def idleFly : FlyState := ⟨false, false, 0, false, false⟩

/-- A map event that can settle a pending `flyToRegion` promise. -/
inductive MapSignal
  | moveend
  | errorEvt
deriving DecidableEq

/-- The `onMoveEnd` handler: if still attached, clear `isAnimatingRef`, detach
both listeners, and — only if `animationPromiseRef.current` is non-null —
resolve the promise and null the ref. -/
def handleMoveEnd (s : FlyState) : FlyState :=
  if s.moveEndAttached then
    { isAnimating := false
      promiseRef := false
      settleCount := if s.promiseRef then s.settleCount + 1 else s.settleCount
      moveEndAttached := false
      errorAttached := false }
  else s

/-- The `onError` handler: identical bookkeeping, rejecting instead of
resolving (both count as settling the promise). -/
def handleError (s : FlyState) : FlyState :=
  if s.errorAttached then
    { isAnimating := false
      promiseRef := false
      settleCount := if s.promiseRef then s.settleCount + 1 else s.settleCount
      moveEndAttached := false
      errorAttached := false }
  else s

/-- Dispatch one map event to the registered handlers. -/
def handleSignal (s : FlyState) : MapSignal → FlyState
  | .moveend => handleMoveEnd s
  | .errorEvt => handleError s

/-- Deliver a sequence of map events in order. -/
def runSignals (s : FlyState) (sigs : List MapSignal) : FlyState :=
  sigs.foldl handleSignal s

/-- Result of calling `flyToRegion`: whether the returned promise was resolved
`false` immediately, whether `mapInstance.flyTo` was invoked, and the hook
state after the call. -/
structure FlyCallResult where
  resolvedFalse : Bool
  flyToInvoked : Bool
  state : FlyState
deriving DecidableEq

/-- The body of `flyToRegion` up to returning control: the guard
`if (!mapInstance || isAnimatingRef.current) { resolve(false); return; }`,
and otherwise the start of a new animation — set `isAnimatingRef`, store the
new promise's resolvers in `animationPromiseRef`, call `mapInstance.flyTo`,
and attach the `moveend` and `error` listeners. -/
def flyToRegion (mapPresent : Bool) (s : FlyState) : FlyCallResult :=
  if mapPresent = false ∨ s.isAnimating = true then
    ⟨true, false, s⟩
  else
    ⟨false, true,
      { isAnimating := true
        promiseRef := true
        settleCount := 0
        moveEndAttached := true
        errorAttached := true }⟩

/-! ## Helper lemmas -/

/-- Unfolding of `animateStep` with the let-bindings resolved. -/
lemma animateStep_eq (ds : List ℚ) (s : AnimState) :
    animateStep ds s =
      if ds.getD (currentSegment ds s) 0 < s.animationTime + frameDelta then
        ⟨currentSegment ds s + 1, 0⟩
      else ⟨currentSegment ds s, s.animationTime + frameDelta⟩ := rfl

/-- A frame that stays inside the current segment adds exactly one frame
delta. -/
lemma animateStep_no_adv (ds : List ℚ) (s : AnimState)
    (h : ¬ ds.getD (currentSegment ds s) 0 < s.animationTime + frameDelta) :
    animateStep ds s = ⟨currentSegment ds s, s.animationTime + frameDelta⟩ := by
  rw [animateStep_eq, if_neg h]

/-- A frame that crosses the current segment's duration advances the index
and resets the elapsed time to zero. -/
lemma animateStep_adv (ds : List ℚ) (s : AnimState)
    (h : ds.getD (currentSegment ds s) 0 < s.animationTime + frameDelta) :
    animateStep ds s = ⟨currentSegment ds s + 1, 0⟩ := by
  rw [animateStep_eq, if_pos h]

/-- Frames compose: running `a + b` frames is running `a` frames and then
`b` frames. -/
lemma runAnim_add (ds : List ℚ) (a b : Nat) (s : AnimState) :
    runAnim ds (a + b) s = runAnim ds b (runAnim ds a s) := by
  induction a generalizing s with
  | zero => rw [Nat.zero_add]; rfl
  | succ n ih =>
    have h1 : n + 1 + b = (n + b) + 1 := by omega
    rw [h1]
    exact ih (animateStep ds s)

/-- Inside a segment of duration `m / 60` seconds, `k` frames starting from
`j / 60` seconds of elapsed time accumulate to `(j + k) / 60` seconds without
advancing, as long as `j + k ≤ m`. -/
lemma runAnim_stay (ds : List ℚ) (i m : Nat) (hi : i < ds.length)
    (hd : ds.getD i 0 = (m : ℚ) / 60) :
    ∀ k j : Nat, j + k ≤ m →
      runAnim ds k ⟨i, (j : ℚ) / 60⟩ = ⟨i, ((j + k : Nat) : ℚ) / 60⟩ := by
  intro k
  induction k with
  | zero =>
    intro j _
    simp [runAnim]
  | succ n ih =>
    intro j hjk
    have hmod : i % ds.length = i := Nat.mod_eq_of_lt hi
    have hcs : currentSegment ds ⟨i, (j : ℚ) / 60⟩ = i := by
      simp [currentSegment, hmod]
    have hle : (j : ℚ) + 1 ≤ (m : ℚ) := by
      have hn : j + 1 ≤ m := by omega
      exact_mod_cast hn
    have hnlt : ¬ ds.getD (currentSegment ds ⟨i, (j : ℚ) / 60⟩) 0 <
        (⟨i, (j : ℚ) / 60⟩ : AnimState).animationTime + frameDelta := by
      rw [hcs, hd]
      show ¬ (m : ℚ) / 60 < (j : ℚ) / 60 + frameDelta
      rw [frameDelta]
      intro hlt
      linarith
    have hstep := animateStep_no_adv ds ⟨i, (j : ℚ) / 60⟩ hnlt
    show runAnim ds n (animateStep ds ⟨i, (j : ℚ) / 60⟩) = _
    rw [hstep, hcs]
    have htime : (⟨i, (j : ℚ) / 60⟩ : AnimState).animationTime + frameDelta =
        ((j + 1 : Nat) : ℚ) / 60 := by
      show (j : ℚ) / 60 + frameDelta = ((j + 1 : Nat) : ℚ) / 60
      rw [frameDelta]
      push_cast
      ring
    rw [htime]
    have hres := ih (j + 1) (by omega)
    rw [hres]
    have harith : j + 1 + n = j + (n + 1) := by omega
    rw [harith]

/-- A segment whose duration is `m / 60` seconds occupies exactly `m + 1`
frames: `m` frames to reach elapsed time equal to the duration, plus the
boundary frame that strictly exceeds it, advances the index and discards the
overflow. -/
lemma runAnim_segment (ds : List ℚ) (i m : Nat) (hi : i < ds.length)
    (hd : ds.getD i 0 = (m : ℚ) / 60) :
    runAnim ds (m + 1) ⟨i, 0⟩ = ⟨i + 1, 0⟩ := by
  rw [runAnim_add ds m 1]
  have h0 : runAnim ds m ⟨i, 0⟩ = ⟨i, (m : ℚ) / 60⟩ := by
    have hraw := runAnim_stay ds i m hi hd m 0 (by omega)
    simpa using hraw
  rw [h0]
  show animateStep ds ⟨i, (m : ℚ) / 60⟩ = ⟨i + 1, 0⟩
  have hmod : i % ds.length = i := Nat.mod_eq_of_lt hi
  have hcs : currentSegment ds ⟨i, (m : ℚ) / 60⟩ = i := by
    simp [currentSegment, hmod]
  have hlt : ds.getD (currentSegment ds ⟨i, (m : ℚ) / 60⟩) 0 <
      (⟨i, (m : ℚ) / 60⟩ : AnimState).animationTime + frameDelta := by
    rw [hcs, hd]
    show (m : ℚ) / 60 < (m : ℚ) / 60 + frameDelta
    rw [frameDelta]
    linarith
  rw [animateStep_adv ds _ hlt, hcs]

/-- The Metro Manila tour has eight segments. -/
lemma tour_length : tourDurations.length = 8 := rfl

/-- The eight segment durations, in frames at 60 FPS: the durations
4, 6, 5, 5, 6, 4, 5, 5 seconds are 240, 360, 300, 300, 360, 240, 300 and 300
frames. -/
lemma tour_getD :
    tourDurations.getD 0 0 = (240 : ℚ) / 60 ∧
    tourDurations.getD 1 0 = (360 : ℚ) / 60 ∧
    tourDurations.getD 2 0 = (300 : ℚ) / 60 ∧
    tourDurations.getD 3 0 = (300 : ℚ) / 60 ∧
    tourDurations.getD 4 0 = (360 : ℚ) / 60 ∧
    tourDurations.getD 5 0 = (240 : ℚ) / 60 ∧
    tourDurations.getD 6 0 = (300 : ℚ) / 60 ∧
    tourDurations.getD 7 0 = (300 : ℚ) / 60 := by
  refine ⟨?_, ?_, ?_, ?_, ?_, ?_, ?_, ?_⟩ <;>
    · rw [show tourDurations = [4, 6, 5, 5, 6, 4, 5, 5] from rfl]
      norm_num

/-- One full cycle of the Metro Manila tour takes 2408 frames: each of the
eight segments costs its duration in frames plus one boundary frame. -/
lemma run_tour_2408 : runAnim tourDurations 2408 ⟨0, 0⟩ = ⟨8, 0⟩ := by
  obtain ⟨d0, d1, d2, d3, d4, d5, d6, d7⟩ := tour_getD
  have s0 : runAnim tourDurations 241 ⟨0, 0⟩ = ⟨1, 0⟩ :=
    runAnim_segment tourDurations 0 240 (by rw [tour_length]; omega) d0
  have s1 : runAnim tourDurations 361 ⟨1, 0⟩ = ⟨2, 0⟩ :=
    runAnim_segment tourDurations 1 360 (by rw [tour_length]; omega) d1
  have s2 : runAnim tourDurations 301 ⟨2, 0⟩ = ⟨3, 0⟩ :=
    runAnim_segment tourDurations 2 300 (by rw [tour_length]; omega) d2
  have s3 : runAnim tourDurations 301 ⟨3, 0⟩ = ⟨4, 0⟩ :=
    runAnim_segment tourDurations 3 300 (by rw [tour_length]; omega) d3
  have s4 : runAnim tourDurations 361 ⟨4, 0⟩ = ⟨5, 0⟩ :=
    runAnim_segment tourDurations 4 360 (by rw [tour_length]; omega) d4
  have s5 : runAnim tourDurations 241 ⟨5, 0⟩ = ⟨6, 0⟩ :=
    runAnim_segment tourDurations 5 240 (by rw [tour_length]; omega) d5
  have s6 : runAnim tourDurations 301 ⟨6, 0⟩ = ⟨7, 0⟩ :=
    runAnim_segment tourDurations 6 300 (by rw [tour_length]; omega) d6
  have s7 : runAnim tourDurations 301 ⟨7, 0⟩ = ⟨8, 0⟩ :=
    runAnim_segment tourDurations 7 300 (by rw [tour_length]; omega) d7
  have h1 : runAnim tourDurations 602 ⟨0, 0⟩ = ⟨2, 0⟩ := by
    have h := runAnim_add tourDurations 241 361 ⟨0, 0⟩
    rw [s0] at h
    rw [show (602 : Nat) = 241 + 361 by omega, h, s1]
  have h2 : runAnim tourDurations 903 ⟨0, 0⟩ = ⟨3, 0⟩ := by
    have h := runAnim_add tourDurations 602 301 ⟨0, 0⟩
    rw [h1] at h
    rw [show (903 : Nat) = 602 + 301 by omega, h, s2]
  have h3 : runAnim tourDurations 1204 ⟨0, 0⟩ = ⟨4, 0⟩ := by
    have h := runAnim_add tourDurations 903 301 ⟨0, 0⟩
    rw [h2] at h
    rw [show (1204 : Nat) = 903 + 301 by omega, h, s3]
  have h4 : runAnim tourDurations 1565 ⟨0, 0⟩ = ⟨5, 0⟩ := by
    have h := runAnim_add tourDurations 1204 361 ⟨0, 0⟩
    rw [h3] at h
    rw [show (1565 : Nat) = 1204 + 361 by omega, h, s4]
  have h5 : runAnim tourDurations 1806 ⟨0, 0⟩ = ⟨6, 0⟩ := by
    have h := runAnim_add tourDurations 1565 241 ⟨0, 0⟩
    rw [h4] at h
    rw [show (1806 : Nat) = 1565 + 241 by omega, h, s5]
  have h6 : runAnim tourDurations 2107 ⟨0, 0⟩ = ⟨7, 0⟩ := by
    have h := runAnim_add tourDurations 1806 301 ⟨0, 0⟩
    rw [h5] at h
    rw [show (2107 : Nat) = 1806 + 301 by omega, h, s6]
  have h := runAnim_add tourDurations 2107 301 ⟨0, 0⟩
  rw [h6] at h
  rw [show (2408 : Nat) = 2107 + 301 by omega, h, s7]

/-- After segment seven is entered (2107 frames in), 293 further frames stay
inside it, so 2400 frames — exactly the 40 s sum of the durations — leave the
tour mid-segment at index 7 with 293/60 s elapsed. -/
lemma run_tour_2400 : runAnim tourDurations 2400 ⟨0, 0⟩ = ⟨7, (293 : ℚ) / 60⟩ := by
  obtain ⟨d0, d1, d2, d3, d4, d5, d6, d7⟩ := tour_getD
  have s0 : runAnim tourDurations 241 ⟨0, 0⟩ = ⟨1, 0⟩ :=
    runAnim_segment tourDurations 0 240 (by rw [tour_length]; omega) d0
  have s1 : runAnim tourDurations 361 ⟨1, 0⟩ = ⟨2, 0⟩ :=
    runAnim_segment tourDurations 1 360 (by rw [tour_length]; omega) d1
  have s2 : runAnim tourDurations 301 ⟨2, 0⟩ = ⟨3, 0⟩ :=
    runAnim_segment tourDurations 2 300 (by rw [tour_length]; omega) d2
  have s3 : runAnim tourDurations 301 ⟨3, 0⟩ = ⟨4, 0⟩ :=
    runAnim_segment tourDurations 3 300 (by rw [tour_length]; omega) d3
  have s4 : runAnim tourDurations 361 ⟨4, 0⟩ = ⟨5, 0⟩ :=
    runAnim_segment tourDurations 4 360 (by rw [tour_length]; omega) d4
  have s5 : runAnim tourDurations 241 ⟨5, 0⟩ = ⟨6, 0⟩ :=
    runAnim_segment tourDurations 5 240 (by rw [tour_length]; omega) d5
  have s6 : runAnim tourDurations 301 ⟨6, 0⟩ = ⟨7, 0⟩ :=
    runAnim_segment tourDurations 6 300 (by rw [tour_length]; omega) d6
  have h1 : runAnim tourDurations 602 ⟨0, 0⟩ = ⟨2, 0⟩ := by
    have h := runAnim_add tourDurations 241 361 ⟨0, 0⟩
    rw [s0] at h
    rw [show (602 : Nat) = 241 + 361 by omega, h, s1]
  have h2 : runAnim tourDurations 903 ⟨0, 0⟩ = ⟨3, 0⟩ := by
    have h := runAnim_add tourDurations 602 301 ⟨0, 0⟩
    rw [h1] at h
    rw [show (903 : Nat) = 602 + 301 by omega, h, s2]
  have h3 : runAnim tourDurations 1204 ⟨0, 0⟩ = ⟨4, 0⟩ := by
    have h := runAnim_add tourDurations 903 301 ⟨0, 0⟩
    rw [h2] at h
    rw [show (1204 : Nat) = 903 + 301 by omega, h, s3]
  have h4 : runAnim tourDurations 1565 ⟨0, 0⟩ = ⟨5, 0⟩ := by
    have h := runAnim_add tourDurations 1204 361 ⟨0, 0⟩
    rw [h3] at h
    rw [show (1565 : Nat) = 1204 + 361 by omega, h, s4]
  have h5 : runAnim tourDurations 1806 ⟨0, 0⟩ = ⟨6, 0⟩ := by
    have h := runAnim_add tourDurations 1565 241 ⟨0, 0⟩
    rw [h4] at h
    rw [show (1806 : Nat) = 1565 + 241 by omega, h, s5]
  have h6 : runAnim tourDurations 2107 ⟨0, 0⟩ = ⟨7, 0⟩ := by
    have h := runAnim_add tourDurations 1806 301 ⟨0, 0⟩
    rw [h5] at h
    rw [show (2107 : Nat) = 1806 + 301 by omega, h, s6]
  have hpart : runAnim tourDurations 293 ⟨7, 0⟩ = ⟨7, (293 : ℚ) / 60⟩ := by
    have hraw := runAnim_stay tourDurations 7 300 (by rw [tour_length]; omega) d7 293 0
      (by omega)
    simpa using hraw
  have h := runAnim_add tourDurations 2107 293 ⟨0, 0⟩
  rw [h6] at h
  rw [show (2400 : Nat) = 2107 + 293 by omega, h, hpart]

/-- Both settlement handlers preserve the settlement invariant: the settle
count remains at most one, and while the promise ref is still live the count
is zero. -/
lemma handleSignal_preserves (s : FlyState) (sig : MapSignal)
    (h1 : s.settleCount ≤ 1) (h2 : s.promiseRef = true → s.settleCount = 0) :
    (handleSignal s sig).settleCount ≤ 1 ∧
      ((handleSignal s sig).promiseRef = true →
        (handleSignal s sig).settleCount = 0) := by
  have hcount : (if s.promiseRef then s.settleCount + 1 else s.settleCount) ≤ 1 := by
    by_cases hp : s.promiseRef = true
    · simp [hp, h2 hp]
    · simp [hp, h1]
  constructor
  · cases sig <;> simp only [handleSignal, handleMoveEnd, handleError] <;> split
    · exact hcount
    · exact h1
    · exact hcount
    · exact h1
  · cases sig <;> simp only [handleSignal, handleMoveEnd, handleError] <;> split
    · intro hfalse; simp at hfalse
    · exact h2
    · intro hfalse; simp at hfalse
    · exact h2

/-- Delivering any sequence of `moveend` / `error` events preserves the
settlement invariant, hence never settles the promise a second time. -/
lemma runSignals_settle_bound (sigs : List MapSignal) :
    ∀ s : FlyState, s.settleCount ≤ 1 → (s.promiseRef = true → s.settleCount = 0) →
      (runSignals s sigs).settleCount ≤ 1 := by
  induction sigs with
  | nil => intro s h1 _; exact h1
  | cons sig rest ih =>
    intro s h1 h2
    have hstep := handleSignal_preserves s sig h1 h2
    exact ih (handleSignal s sig) hstep.1 hstep.2

/-! ## Claims -/

/-- Claim C1 (counterexample): the frame loop does NOT carry overflow into the
next segment. From state (segment 0, elapsed 5 s) — one second past the 4 s
duration of segment 0 — a single frame advances to segment 1 with elapsed
time reset to exactly 0, discarding the overflow of 1 + 1/60 s. Consequently
a full cycle does not take exactly the 40 s sum of durations: after 2400
frames (exactly 40 s at 1/60 s per frame) the tour is still in segment 7,
not back at segment 0. -/
theorem tour_cycle_overflow_cx :
    animateStep tourDurations ⟨0, 5⟩ = ⟨1, 0⟩ ∧
    currentSegment tourDurations (runAnim tourDurations 2400 ⟨0, 0⟩) ≠ 0 := by
  constructor
  · have hlt : tourDurations.getD (currentSegment tourDurations ⟨0, 5⟩) 0 <
        (⟨0, 5⟩ : AnimState).animationTime + frameDelta := by
      rw [show currentSegment tourDurations ⟨0, 5⟩ = 0 from rfl,
        show tourDurations.getD 0 0 = 4 from rfl]
      show (4 : ℚ) < 5 + frameDelta
      rw [frameDelta]
      norm_num
    rw [animateStep_adv tourDurations _ hlt]
    rfl
  · rw [run_tour_2400]
    decide

/-- Claim C1 (amended): each frame either resets the elapsed time to 0 (on a
segment transition, discarding any overflow) or adds exactly the fixed frame
delta of 1/60 s; a full cycle of the eight-segment Metro Manila tour therefore
takes 2408 frames (40 + 8/60 seconds), one extra frame per segment beyond the
40 s total of the durations: after 2400 frames the state is (segment 7,
elapsed 293/60 s), and after 2408 frames the loop is back at segment 0 with
elapsed 0. -/
theorem tour_cycle_overflow_amended :
    (∀ (ds : List ℚ) (s : AnimState),
        (animateStep ds s).animationTime = 0 ∨
        (animateStep ds s).animationTime = s.animationTime + frameDelta) ∧
    runAnim tourDurations 2400 ⟨0, 0⟩ = ⟨7, (293 : ℚ) / 60⟩ ∧
    runAnim tourDurations 2408 ⟨0, 0⟩ = ⟨8, 0⟩ ∧
    currentSegment tourDurations ⟨8, 0⟩ = 0 := by
  refine ⟨?_, run_tour_2400, run_tour_2408, by decide⟩
  intro ds s
  by_cases h : ds.getD (currentSegment ds s) 0 < s.animationTime + frameDelta
  · left
    rw [animateStep_adv ds s h]
  · right
    rw [animateStep_no_adv ds s h]

/-- Claim C2 (counterexample): the handler does not select the maximum-ratio
section with ties broken by lowest order index. Two sections, `"sec2"`
(order index 2) and `"sec5"` (order index 5), both report ratio 1/2 — above
the 0.3 threshold — in the same batch; the active section resolves to
`"sec5"`, the later-processed entry, not to `"sec2"` as the claim requires. -/
theorem active_tie_break_cx :
    (processEntries (3/10) initMapper
        [⟨some "sec2", true, 1/2⟩, ⟨some "sec5", true, 1/2⟩]).activeSection =
      some "sec5" ∧
    (some "sec5" : Option String) ≠ some "sec2" := by
  constructor
  · norm_num +decide [processEntries, processEntry, initMapper, effThreshold,
      setInsert, mapSet]
  · decide

/-- Claim C2 (amended): the active section is simply the last-processed entry
that is intersecting with ratio strictly greater than the effective threshold
(`threshold || 0.3`); equal-ratio updates are resolved by processing order
(last write wins), not by order index, and when no entry qualifies the
previous active section is retained rather than recomputed. -/
theorem active_last_qualifying_wins (th : ℚ) (s : MapperState) (e : Entry)
    (id : String) (hid : e.sectionId = some id) (hne : id ≠ "")
    (hi : e.isIntersecting = true) (hr : effThreshold th < e.intersectionRatio) :
    (processEntry th s e).activeSection = some id := by
  unfold processEntry
  rw [hid]
  simp [hne, hi, hr]

/-- Witness for `active_last_qualifying_wins` at a concrete entry. -/
theorem active_last_qualifying_wins_witness :
    ((⟨some "a", true, 1/2⟩ : Entry).sectionId = some "a" ∧ "a" ≠ "" ∧
     (⟨some "a", true, 1/2⟩ : Entry).isIntersecting = true ∧
     effThreshold (3/10) < (⟨some "a", true, 1/2⟩ : Entry).intersectionRatio) ∧
    (processEntry (3/10) initMapper ⟨some "a", true, 1/2⟩).activeSection =
      some "a" :=
  ⟨⟨rfl, by decide, rfl, by norm_num [effThreshold]⟩,
   active_last_qualifying_wins (3/10) initMapper ⟨some "a", true, 1/2⟩ "a"
     rfl (by decide) rfl (by norm_num [effThreshold])⟩

/-- Claim C3 (counterexample): the invariant "the active section, if non-null,
is a member of the visible set" is not preserved. Section `"about"` becomes
visible and active, then reports `isIntersecting = false`: it is removed from
the visible set but remains the active section. -/
theorem active_outside_visible_cx :
    (processEntries (3/10) initMapper
        [⟨some "about", true, 1/2⟩, ⟨some "about", false, 1/10⟩]).activeSection =
      some "about" ∧
    "about" ∉ (processEntries (3/10) initMapper
        [⟨some "about", true, 1/2⟩, ⟨some "about", false, 1/10⟩]).visibleSections := by
  constructor
  · norm_num +decide [processEntries, processEntry, initMapper, effThreshold,
      setInsert, mapSet]
  · norm_num +decide [processEntries, processEntry, initMapper, effThreshold,
      setInsert, mapSet]

/-- Claim C3 (amended): the handler never resets the active section to null —
once set, it persists even after its section leaves the visible set, so the
membership invariant does not hold; formally, if the active section is null
after an update it was already null before. -/
theorem active_never_cleared (th : ℚ) (s : MapperState) (e : Entry)
    (h : (processEntry th s e).activeSection = none) :
    s.activeSection = none := by
  rcases e with ⟨sid, bi, r⟩
  cases sid with
  | none => exact h
  | some id =>
    by_cases hempty : id = ""
    · simpa [processEntry, hempty] using h
    · by_cases hcond : bi = true ∧ effThreshold th < r
      · simp [processEntry, hempty, hcond] at h
      · simpa [processEntry, hempty, hcond] using h

/-- Witness for `active_never_cleared` at a concrete non-qualifying entry. -/
theorem active_never_cleared_witness :
    (processEntry (3/10) initMapper ⟨some "a", false, 0⟩).activeSection = none ∧
    initMapper.activeSection = none :=
  ⟨by norm_num +decide [processEntry, initMapper, effThreshold],
   active_never_cleared (3/10) initMapper ⟨some "a", false, 0⟩
     (by norm_num +decide [processEntry, initMapper, effThreshold])⟩

/-- Claim C4 (counterexample): the section-change callback is not deduplicated.
Two identical updates for `"skills"` (intersecting, ratio 1/2) leave the
active section unchanged at `"skills"` after the first update, yet the
callback history records two invocations. -/
theorem duplicate_emission_cx :
    (processEntry (3/10) initMapper ⟨some "skills", true, 1/2⟩).activeSection =
      some "skills" ∧
    (processEntries (3/10) initMapper
        [⟨some "skills", true, 1/2⟩, ⟨some "skills", true, 1/2⟩]).activeSection =
      some "skills" ∧
    (processEntries (3/10) initMapper
        [⟨some "skills", true, 1/2⟩, ⟨some "skills", true, 1/2⟩]).changeEmits =
      ["skills", "skills"] := by
  refine ⟨?_, ?_, ?_⟩ <;>
    norm_num +decide [processEntries, processEntry, initMapper, effThreshold,
      setInsert, mapSet]

/-- Claim C4 (amended): `onSectionChange` is invoked on every processed entry
that is intersecting with ratio strictly above the effective threshold,
whether or not the active section actually changed — the number of
invocations equals the number of qualifying entries, not the number of
active-section changes. -/
theorem emit_every_qualifying_entry (th : ℚ) (s : MapperState) (e : Entry)
    (id : String) (hid : e.sectionId = some id) (hne : id ≠ "")
    (hi : e.isIntersecting = true) (hr : effThreshold th < e.intersectionRatio) :
    (processEntry th s e).changeEmits = s.changeEmits ++ [id] := by
  unfold processEntry
  rw [hid]
  simp [hne, hi, hr]

/-- Witness for `emit_every_qualifying_entry` at a concrete entry. -/
theorem emit_every_qualifying_entry_witness :
    ((⟨some "b", true, 2/5⟩ : Entry).sectionId = some "b" ∧ "b" ≠ "" ∧
     (⟨some "b", true, 2/5⟩ : Entry).isIntersecting = true ∧
     effThreshold (3/10) < (⟨some "b", true, 2/5⟩ : Entry).intersectionRatio) ∧
    (processEntry (3/10) initMapper ⟨some "b", true, 2/5⟩).changeEmits = [] ++ ["b"] :=
  ⟨⟨rfl, by decide, rfl, by norm_num [effThreshold]⟩,
   emit_every_qualifying_entry (3/10) initMapper ⟨some "b", true, 2/5⟩ "b"
     rfl (by decide) rfl (by norm_num [effThreshold])⟩

/-- Claim C5 (counterexample): membership in the visible set is not decided by
the reported ratio. An entry for `"contact"` with `isIntersecting = true` but
ratio 1/10 — below the 0.3 threshold — is nevertheless added to the visible
set, contradicting "member iff ratio ≥ threshold". -/
theorem membership_ignores_ratio_cx :
    "contact" ∈ (processEntry (3/10) initMapper
        ⟨some "contact", true, 1/10⟩).visibleSections ∧
    ¬ ((3/10 : ℚ) ≤ 1/10) := by
  constructor
  · norm_num +decide [processEntry, initMapper, effThreshold, setInsert]
  · norm_num

/-- Claim C5 (amended): visible-set membership is decided solely by the
boolean `isIntersecting` flag; the ratio influences only the progress map and
the active-section condition. For a duplicate-free visible set, after
processing an entry for section `id` the section is a member exactly when the
entry was intersecting. -/
theorem membership_by_flag (th : ℚ) (s : MapperState) (e : Entry)
    (id : String) (hid : e.sectionId = some id) (hne : id ≠ "")
    (hnd : s.visibleSections.Nodup) :
    (id ∈ (processEntry th s e).visibleSections ↔ e.isIntersecting = true) := by
  unfold processEntry
  rw [hid]
  cases hi : e.isIntersecting with
  | false =>
    have hout : id ∉ s.visibleSections.erase id := hnd.not_mem_erase
    simp [hne, hi, hout]
  | true =>
    by_cases hmem : id ∈ s.visibleSections
    · simp [hne, hi, setInsert, hmem]
    · simp [hne, hi, setInsert, hmem]

/-- Witness for `membership_by_flag` at a concrete entry. -/
theorem membership_by_flag_witness :
    ((⟨some "c", true, 0⟩ : Entry).sectionId = some "c" ∧ "c" ≠ "" ∧
     initMapper.visibleSections.Nodup) ∧
    ("c" ∈ (processEntry (3/10) initMapper ⟨some "c", true, 0⟩).visibleSections ↔
      (⟨some "c", true, 0⟩ : Entry).isIntersecting = true) :=
  ⟨⟨rfl, by decide, List.nodup_nil⟩,
   membership_by_flag (3/10) initMapper ⟨some "c", true, 0⟩ "c" rfl
     (by decide) List.nodup_nil⟩

/-- Claim C6: `lerp` computes `a * (1 - t) + b * t` with exact boundary values
`lerp a b 0 = a` and `lerp a b 1 = b`; it is the unclamped linear extension
`a + (b - a) * t` for every `t` (no clamping outside `[0, 1]`), and the
two-vector branch is exactly component-wise scalar `lerp` with the same
boundary values. -/
theorem lerp_boundary_and_linear (a b t : ℚ) (v w : ℚ × ℚ) :
    lerp a b 0 = a ∧ lerp a b 1 = b ∧
    lerp a b t = a + (b - a) * t ∧
    lerpVec v w t = (lerp v.1 w.1 t, lerp v.2 w.2 t) ∧
    lerpVec v w 0 = v ∧ lerpVec v w 1 = w := by
  refine ⟨?_, ?_, ?_, rfl, ?_, ?_⟩
  · simp [lerp]
  · simp [lerp]
  · unfold lerp; ring
  · simp [lerpVec]
  · simp [lerpVec]

/-- Claim C7: each of `easeInOutQuad`, `easeInCubic`, `easeOutCubic` maps 0 to
0 and 1 to 1, and maps every `t` in `[0, 1]` into `[0, 1]`. -/
theorem easing_boundary_and_range (t : ℚ) (h0 : 0 ≤ t) (h1 : t ≤ 1) :
    easeInOutQuad 0 = 0 ∧ easeInOutQuad 1 = 1 ∧
    easeInCubic 0 = 0 ∧ easeInCubic 1 = 1 ∧
    easeOutCubic 0 = 0 ∧ easeOutCubic 1 = 1 ∧
    0 ≤ easeInOutQuad t ∧ easeInOutQuad t ≤ 1 ∧
    0 ≤ easeInCubic t ∧ easeInCubic t ≤ 1 ∧
    0 ≤ easeOutCubic t ∧ easeOutCubic t ≤ 1 := by
  refine ⟨by norm_num [easeInOutQuad], by norm_num [easeInOutQuad],
    by norm_num [easeInCubic], by norm_num [easeInCubic],
    by norm_num [easeOutCubic], by norm_num [easeOutCubic],
    ?_, ?_, ?_, ?_, ?_, ?_⟩
  · unfold easeInOutQuad
    split_ifs with ht
    · nlinarith
    · nlinarith
  · unfold easeInOutQuad
    split_ifs with ht
    · nlinarith
    · nlinarith [sq_nonneg (t - 1)]
  · unfold easeInCubic
    nlinarith
  · unfold easeInCubic
    nlinarith
  · unfold easeOutCubic
    nlinarith [sq_nonneg (1 - t)]
  · unfold easeOutCubic
    nlinarith [sq_nonneg (1 - t)]

/-- Witness for `easing_boundary_and_range` at `t = 1/2`. -/
theorem easing_boundary_and_range_witness :
    ((0 : ℚ) ≤ 1/2 ∧ (1/2 : ℚ) ≤ 1) ∧
    (0 ≤ easeInOutQuad (1/2) ∧ easeInOutQuad (1/2) ≤ 1 ∧
     0 ≤ easeInCubic (1/2) ∧ easeInCubic (1/2) ≤ 1 ∧
     0 ≤ easeOutCubic (1/2) ∧ easeOutCubic (1/2) ≤ 1) :=
  ⟨⟨by norm_num, by norm_num⟩,
   ((easing_boundary_and_range (1/2) (by norm_num) (by norm_num)).2.2.2.2.2.2 :
     0 ≤ easeInOutQuad (1/2) ∧ easeInOutQuad (1/2) ≤ 1 ∧
     0 ≤ easeInCubic (1/2) ∧ easeInCubic (1/2) ≤ 1 ∧
     0 ≤ easeOutCubic (1/2) ∧ easeOutCubic (1/2) ≤ 1)⟩

/-- Claim C8: the segment index used to select an animation is always the
normalized `animationIndex % animations.length`, hence lies in `[0, N)` for a
non-empty tour of `N` segments, and after the final segment completes (raw
index `N`) the active segment wraps to 0 — traversal is cyclic. -/
theorem segment_index_range_and_wrap (ds : List ℚ) (s : AnimState) (t : ℚ)
    (h : ds ≠ []) :
    currentSegment ds s < ds.length ∧
    currentSegment ds ⟨ds.length, t⟩ = 0 := by
  have hlen : 0 < ds.length := List.length_pos.mpr h
  exact ⟨Nat.mod_lt _ hlen, Nat.mod_self _⟩

/-- Witness for `segment_index_range_and_wrap` on the Metro Manila tour. -/
theorem segment_index_range_and_wrap_witness :
    tourDurations ≠ [] ∧
    (currentSegment tourDurations ⟨0, 0⟩ < tourDurations.length ∧
     currentSegment tourDurations ⟨tourDurations.length, 0⟩ = 0) :=
  ⟨by decide, segment_index_range_and_wrap tourDurations ⟨0, 0⟩ 0 (by decide)⟩

/-- Claim C9: once `flyToRegion` actually starts an animation (the guard
passes and `mapInstance.flyTo` is invoked), any sequence of subsequent
`moveend` / `error` events settles the returned promise at most once: the
first settlement detaches both listeners and nulls the promise ref, so every
later signal is ignored. -/
theorem flyToRegion_settles_at_most_once (mp : Bool) (s : FlyState)
    (sigs : List MapSignal) (h : (flyToRegion mp s).flyToInvoked = true) :
    (runSignals (flyToRegion mp s).state sigs).settleCount ≤ 1 := by
  unfold flyToRegion at h ⊢
  split_ifs at h ⊢ with hg
  exact runSignals_settle_bound sigs _ (by decide) (fun _ => rfl)

/-- Witness for `flyToRegion_settles_at_most_once`: both `moveend` and
`error` fire after a started animation and the promise still settles at most
once. -/
theorem flyToRegion_settles_at_most_once_witness :
    (flyToRegion true idleFly).flyToInvoked = true ∧
    (runSignals (flyToRegion true idleFly).state
        [MapSignal.moveend, MapSignal.errorEvt]).settleCount ≤ 1 :=
  ⟨by decide,
   flyToRegion_settles_at_most_once true idleFly
     [MapSignal.moveend, MapSignal.errorEvt] (by decide)⟩

/-- Claim C10: when the map instance is absent or an animation is already in
progress, `flyToRegion` resolves the returned promise to `false` immediately,
does not invoke `mapInstance.flyTo`, and leaves the hook state unchanged. -/
theorem flyToRegion_early_resolves_false (mp : Bool) (s : FlyState)
    (h : mp = false ∨ s.isAnimating = true) :
    flyToRegion mp s = ⟨true, false, s⟩ := by
  unfold flyToRegion
  rw [if_pos h]

/-- Witness for `flyToRegion_early_resolves_false` with an absent map. -/
theorem flyToRegion_early_resolves_false_witness :
    (false = false ∨ idleFly.isAnimating = true) ∧
    flyToRegion false idleFly = ⟨true, false, idleFly⟩ :=
  ⟨Or.inl rfl, flyToRegion_early_resolves_false false idleFly (Or.inl rfl)⟩

end ArchipelagoFolio
